import Mathlib

/-!
Shallow embedding of the action system of a turn-based multiplayer game
(`src/game/actions.ts` of the repository): the data model (actions, actors,
inventories, map cells, messages), the per-kind action components
(parse / validate / perform for Move, Pass, Rest, Ingest, Attack, Pickup,
Drop) and the action registry, together with theorems about them.

Modelling conventions:
* TypeScript numbers are embedded as `Int` (all quantities involved are
  integers; `isFinite` guards are always true in the model and noted where
  they occur in the source).
* The source mutates shared objects in place (the action's `actor`, the
  players inside `game.players`, room item lists).  Each `perform` is
  embedded as a pure function returning the new value of every mutated
  root: the updated actor, the updated game, and the `PerformResult`.
* A thrown `Error` (and a TypeError from dereferencing `undefined` after an
  unchecked cast) is embedded as `Except.error` with the source's message.
* Collaborator modules that are not part of `src/` (inventory, items, map,
  player, helpers) are modelled from the spec; each such definition carries
  a doc comment starting with `Modelled from the spec:`.
-/

/-- Decidable equality for `Except`, used to evaluate embedded operations
on concrete inputs. -/
instance {ε α : Type} [DecidableEq ε] [DecidableEq α] : DecidableEq (Except ε α)
  | .ok a, .ok b =>
    if h : a = b then .isTrue (by rw [h]) else .isFalse (by intro he; cases he; exact h rfl)
  | .error a, .error b =>
    if h : a = b then .isTrue (by rw [h]) else .isFalse (by intro he; cases he; exact h rfl)
  | .ok _, .error _ => .isFalse (by intro he; cases he)
  | .error _, .ok _ => .isFalse (by intro he; cases he)

/-- Grid position; the source passes `{row, col}` records (and row/col
carrying objects such as actors) around. -/
structure Position where
  row : Int
  col : Int
deriving DecidableEq, Repr

/-- Modelled from the spec: a Meter is "a bounded current/maximum effect
tracker"; the source's effect entries additionally carry an `isActive` flag
(`actor.effects.poison.isActive` etc.; `character.ts` is not in src). -/
structure Meter where
  isActive : Bool
  current : Int
  maximum : Int
deriving DecidableEq, Repr

/-- Modelled from the spec: the character effect meters touched by the
components (exhaustion, poison, addiction, immortality, hunger). -/
structure Effects where
  exhaustion : Meter
  poison : Meter
  addiction : Meter
  immortality : Meter
  hunger : Meter
deriving DecidableEq, Repr

/-- Core stat block (`stats.ts` is not in src; fields are the ones the
action components read and write). -/
structure Stats where
  health : Int
  intelligence : Int
  strength : Int
  agility : Int
deriving DecidableEq, Repr

/-- Modelled from the spec: gun-specific weapon fields (`items/weapon.ts`
is not in src): `accuracy` percentage and the `bullet` item it consumes. -/
structure GunProps where
  accuracy : Int
  bullet : String
deriving DecidableEq, Repr

/-- Modelled from the spec: attack-weapon fields read by the Attack
component: per-strike `damageAmount`, `range`, and gun data when the
weapon is a gun (`Weapon.isWeaponGun`). -/
structure WeaponProps where
  damageAmount : Int
  range : Int
  gun : Option GunProps
deriving DecidableEq, Repr

/-- Modelled from the spec: ingestible-item fields read by the Ingest
component (`items/ingestible.ts` is not in src). -/
structure IngestibleProps where
  stats : Stats
  curesPoisoning : Bool
  isPoisoned : Bool
  isAddictive : Bool
  givesImmortality : Bool
  addictionRelief : Int
  exhaustionRelief : Int
  hungerRelief : Int
deriving DecidableEq, Repr

/-- Modelled from the spec: an item's role payload — weapon, ingestible, or
plain (e.g. the 'Map' item).  The source uses structural typing with type
guards (`Weapon.isWeaponGun`, `Ingestible.itemIsIngestible`). -/
inductive ItemKind where
  | weapon (props : WeaponProps)
  | ingestible (props : IngestibleProps)
  | plain
deriving DecidableEq, Repr

/-- Modelled from the spec: an item with its name and role payload
(`items/item.ts` is not in src). -/
structure Item where
  name : String
  kind : ItemKind
deriving DecidableEq, Repr

/-- Source reads `weaponStack.item.damageAmount` after an unchecked cast to
`AttackWeapon`; non-weapon items yield a default. -/
def Item.damageAmount (i : Item) : Int :=
  match i.kind with
  | .weapon props => props.damageAmount
  | _ => 0

/-- Source reads `weaponStack.item.range` after an unchecked cast. -/
def Item.range (i : Item) : Int :=
  match i.kind with
  | .weapon props => props.range
  | _ => 0

/-- Embedding of `Weapon.isWeaponGun` (type guard in `items/weapon.ts`). -/
def Item.isWeaponGun (i : Item) : Bool :=
  match i.kind with
  | .weapon props => props.gun.isSome
  | _ => false

/-- Source reads `weaponStack.item.accuracy` on a gun weapon. -/
def Item.accuracy (i : Item) : Int :=
  match i.kind with
  | .weapon props =>
    match props.gun with
    | some gunProps => gunProps.accuracy
    | none => 0
  | _ => 0

/-- Source reads `weaponStack.item.bullet` on a gun weapon. -/
def Item.bullet (i : Item) : String :=
  match i.kind with
  | .weapon props =>
    match props.gun with
    | some gunProps => gunProps.bullet
    | none => ""
  | _ => ""

/-- Embedding of `Ingestible.itemIsIngestible` (type guard). -/
def Item.itemIsIngestible (i : Item) : Bool :=
  match i.kind with
  | .ingestible _ => true
  | _ => false

/-- Stack / ItemStack: "a quantity of a single item kind up to a maximum
capacity" (spec glossary); fields as read by the components. -/
structure ItemStack where
  item : Item
  stackAmount : Int
  maxStackAmount : Int
deriving DecidableEq, Repr

/-- Embedding of `Item.createItemStack` (e.g.
`Item.createItemStack(Weapon.FIST, 1, 1)`). -/
def Item.createItemStack (item : Item) (amount : Int) (maxAmount : Int) : ItemStack :=
  { item := item, stackAmount := amount, maxStackAmount := maxAmount }

/-- Modelled from the spec: `Item.getItem` on a stack list resolves an item
name to the first stack holding that item (`items/item.ts` is not in src). -/
def Item.getItem (stackList : List ItemStack) (name : String) : Option ItemStack :=
  stackList.find? (fun s => s.item.name == name)

/-- Modelled from the spec: `Item.hasItem` is the membership query matching
`Item.getItem`. -/
def Item.hasItem (stackList : List ItemStack) (name : String) : Bool :=
  (Item.getItem stackList name).isSome

/-- Modelled from the spec: `Item.stackIsFull` — the stack holds its
maximum capacity. -/
def Item.stackIsFull (s : ItemStack) : Bool :=
  s.maxStackAmount ≤ s.stackAmount

/-- Modelled from the spec: `Item.removeEmptyStacks` removes "any
now-empty stacks". -/
def Item.removeEmptyStacks (stackList : List ItemStack) : List ItemStack :=
  stackList.filter (fun s => 0 < s.stackAmount)

/-- Modelled from the spec: an inventory is a list of item stacks with a
bounded number of stack slots (`Inventory.inventoryIsFull`). -/
structure Inventory where
  itemStacks : List ItemStack
  maximumCapacity : Nat
deriving DecidableEq, Repr

/-- Modelled from the spec: `Inventory.getItem` delegates to the stack-list
lookup. -/
def Inventory.getItem (inv : Inventory) (name : String) : Option ItemStack :=
  Item.getItem inv.itemStacks name

/-- Modelled from the spec: `Inventory.hasItem` delegates to the stack-list
membership query. -/
def Inventory.hasItem (inv : Inventory) (name : String) : Bool :=
  Item.hasItem inv.itemStacks name

/-- Modelled from the spec: `Inventory.inventoryIsFull` — every stack slot
is occupied. -/
def Inventory.inventoryIsFull (inv : Inventory) : Bool :=
  inv.maximumCapacity ≤ inv.itemStacks.length

/-- Replace the first element satisfying `p` by its image under `f`; this
mirrors the source's pattern of finding an object reference and mutating it
in place. -/
def updateFirst (p : α → Bool) (f : α → α) : List α → List α
  | [] => []
  | x :: xs => if p x then f x :: xs else x :: updateFirst p f xs

/-- Modelled from the spec: `Inventory.removeFromInventory` removes
`amount` units of the named item from its (first) stack, drops now-empty
stacks, and returns the new inventory together with the affected stack
(`removalReturn.itemStack`); `none` when the item is absent. -/
def Inventory.removeFromInventory (inv : Inventory) (name : String) (amount : Int) :
    Inventory × Option ItemStack :=
  match Item.getItem inv.itemStacks name with
  | none => (inv, none)
  | some s =>
    let stackList :=
      updateFirst (fun st => st.item.name == name)
        (fun st => { st with stackAmount := st.stackAmount - amount }) inv.itemStacks
    ({ inv with itemStacks := Item.removeEmptyStacks stackList }, some s)

/-- Total units of the named item held across an inventory's stacks; used
to state ammunition-consumption properties. -/
def Inventory.invAmount (inv : Inventory) (name : String) : Int :=
  (inv.itemStacks.filter (fun s => s.item.name == name)).foldr
    (fun s acc => s.stackAmount + acc) 0

/-- Embedding of `Animal.Animal` together with the character fields the
components access.  `character.ts` / `animal.ts` are not in src; following
the spec ("tagged dispatch over actor subtype ... model as an explicit
capability flag or variant tag"), a player-controlled character is an
animal whose `playerId` is `some`; `Character.isPlayerCharacter` tests the
tag.  `personalMap` models the character's personal revealed map. -/
structure Animal where
  row : Int
  col : Int
  stats : Stats
  inventory : Inventory
  playerId : Option String
  effects : Effects
  personalMap : List Position
deriving DecidableEq, Repr

/-- Embedding of `Character.isPlayerCharacter` (type guard on the actor). -/
def Character.isPlayerCharacter (a : Animal) : Bool :=
  a.playerId.isSome

/-- Modelled from the spec: `Character.meterIsActive` — whether the effect
is "active" (`character.ts` is not in src). -/
def Character.meterIsActive (m : Meter) : Bool :=
  m.isActive

/-- Modelled from the spec: `Character.updateMeterCurrentValue` adjusts a
meter's current value "toward its relief target", clamped into `[0, maximum]`. -/
def Character.updateMeterCurrentValue (m : Meter) (relief : Int) : Int :=
  min m.maximum (max 0 (m.current + relief))

/-- Modelled from the spec: `Animal.isDead` — "defeated (stat-derived
death)"; the test suite treats health 0 as dead. -/
def Animal.isDead (a : Animal) : Bool :=
  a.stats.health ≤ 0

/-- Modelled from the spec: `Stats.changeStats` applies an item's stat
deltas fieldwise. -/
def Stats.changeStats (s delta : Stats) : Stats :=
  { health := s.health + delta.health
    intelligence := s.intelligence + delta.intelligence
    strength := s.strength + delta.strength
    agility := s.agility + delta.agility }

/-- Modelled from the spec: map cells are rooms (with camp flag and a
ground item list) or barriers; cells carry their own coordinates
(the source reads `room.row`, `room.col` and measures distance between
cells). -/
inductive Cell where
  | room (row col : Int) (hasCamp : Bool) (items : List ItemStack)
  | barrier (row col : Int)
deriving DecidableEq, Repr

/-- Embedding of `Cell.isRoom`. -/
def Cell.isRoom : Cell → Bool
  | .room _ _ _ _ => true
  | .barrier _ _ => false

/-- Embedding of `Cell.isBarrier`. -/
def Cell.isBarrier : Cell → Bool
  | .room _ _ _ _ => false
  | .barrier _ _ => true

/-- Row coordinate of a cell. -/
def Cell.row : Cell → Int
  | .room r _ _ _ => r
  | .barrier r _ => r

/-- Column coordinate of a cell. -/
def Cell.col : Cell → Int
  | .room _ c _ _ => c
  | .barrier _ c => c

/-- Modelled from the spec: `cardinalDistance(a,b)` between two cells —
taxicab distance along the cardinal axes. -/
def Cell.cardinalPositionDistance (a b : Cell) : Int :=
  (a.row - b.row).natAbs + (a.col - b.col).natAbs

/-- Modelled from the spec: `positionsBetween(a,b)` — the positions
strictly between two cardinally aligned positions (empty off-axis). -/
def Cell.getPositionsBetween (a b : Position) : List Position :=
  if a.row = b.row then
    let lo := min a.col b.col
    (List.range (max a.col b.col - lo - 1).toNat).map
      (fun i => { row := a.row, col := lo + 1 + i })
  else if a.col = b.col then
    let lo := min a.row b.row
    (List.range (max a.row b.row - lo - 1).toNat).map
      (fun i => { row := lo + 1 + i, col := a.col })
  else []

/-- Modelled from the spec: the game map is a row-major grid of cells
(`map/map.ts` is not in src). -/
structure GameMap where
  grid : List (List Cell)
deriving DecidableEq, Repr

/-- Modelled from the spec: `Map.isWithinMap` bounds check. -/
def Map.isWithinMap (m : GameMap) (p : Position) : Bool :=
  0 ≤ p.row && p.row < m.grid.length &&
    0 ≤ p.col && p.col < ((m.grid.getD p.row.toNat []).length : Int)

/-- Modelled from the spec: `Map.getCell` — cell at a position; positions
outside the grid yield a barrier (the components only call it on in-bounds
positions). -/
def Map.getCell (m : GameMap) (p : Position) : Cell :=
  if 0 ≤ p.row ∧ 0 ≤ p.col then
    match (m.grid.getD p.row.toNat []).get? p.col.toNat with
    | some c => c
    | none => .barrier p.row p.col
  else .barrier p.row p.col

/-- Position of an animal (the source passes actors wherever a `{row,col}`
record is expected). -/
def Animal.pos (a : Animal) : Position :=
  { row := a.row, col := a.col }

/-- Embedding of `moveEntity` from `entity.ts` (not in src); modelled from
the spec: "relocate actor". -/
def moveEntity (a : Animal) (p : Position) : Animal :=
  { a with row := p.row, col := p.col }

/-- Message kinds of `messaging.ts` (spec: "kinds at minimum
{Game, Talk, Shout, Whisper}"). -/
inductive MessageType where
  | game
  | talk
  | shout
  | whisper
deriving DecidableEq, Repr

/-- Embedding of `Messaging.Message`; the source's `to` field (a list of
player object references) is embedded as `recipients`, a list of player
ids. -/
structure Message where
  content : String
  recipients : List String
  type : MessageType
deriving DecidableEq, Repr

/-- Embedding of `Messaging.createGameMessage`. -/
def Messaging.createGameMessage (content : String) (recipients : List String) : Message :=
  { content := content, recipients := recipients, type := .game }

/-- Embedding of `GamePlayer`: id, name, in-game state (as a `playing`
flag, `player.ts` is not in src), and the controlled character. -/
structure Player where
  id : String
  name : String
  playing : Bool
  character : Animal
deriving DecidableEq, Repr

/-- Modelled from the spec: `isPlaying` — the player's "in-game status
qualifies them as playing". -/
def isPlaying (p : Player) : Bool :=
  p.playing

/-- Embedding of the `Game` context fields the components use: the map,
the player roster and the rng draw used for the addiction coin flip
(`game.rng.pickone([true,false])` is modelled as a pre-drawn boolean). -/
structure Game where
  map : GameMap
  players : List Player
  rngFlip : Bool
deriving DecidableEq, Repr

/-- Embedding of `game.getPlayer(playerId)`. -/
def Game.getPlayer (g : Game) (playerId : String) : Option Player :=
  g.players.find? (fun p => p.id == playerId)

/-- Embedding of `game.hasPlayer(playerId)`. -/
def Game.hasPlayer (g : Game) (playerId : String) : Bool :=
  (g.getPlayer playerId).isSome

/-- Modelled from the spec: `isApproximateSubstring` from `helpers.ts`
(not in src) — case-insensitive approximate name matching of the typed
fragment against a player name (the tests match 'bob' against 'Bob',
'yod' against 'Yoda'). -/
def isApproximateSubstring (sub str : String) : Bool :=
  (sub.data.map Char.toLower).isPrefixOf (str.data.map Char.toLower)

/-- Embedding of `ValidationResult`. -/
structure ValidationResult where
  isValid : Bool
  error : Option String := none
deriving DecidableEq, Repr

/-- Embedding of `PerformResult`. -/
structure PerformResult where
  log : List String
  messages : List Message
deriving DecidableEq, Repr

/-- Embedding of `ComponentKey`. -/
inductive ComponentKey where
  | Move
  | Pass
  | Rest
  | Ingest
  | Attack
  | Pickup
  | Drop
deriving DecidableEq, Repr

/-- Embedding of `MoveAction` (the `key` discriminant of the source's
tagged `Action` union is carried by the Lean type of each action). -/
structure MoveAction where
  actor : Animal
  timestamp : Int
  offsetRow : Int
  offsetCol : Int
deriving DecidableEq, Repr

/-- Embedding of `PassAction`. -/
structure PassAction where
  actor : Animal
  timestamp : Int
deriving DecidableEq, Repr

/-- Embedding of `RestAction`. -/
structure RestAction where
  actor : Animal
  timestamp : Int
deriving DecidableEq, Repr

/-- Embedding of `IngestAction` (`itemName` as a string). -/
structure IngestAction where
  actor : Animal
  timestamp : Int
  itemName : String
deriving DecidableEq, Repr

/-- Embedding of `AttackAction`. -/
structure AttackAction where
  actor : Animal
  timestamp : Int
  targetName : String
  weaponName : String
  times : Int
deriving DecidableEq, Repr

/-- Embedding of `ItemTransaction` (Pickup and Drop actions). -/
structure ItemTransaction where
  actor : Animal
  timestamp : Int
  itemName : String
  transactionAmount : Option Int
deriving DecidableEq, Repr

/-- Lower-case a string character by character (model of the effect of the
`/i` regex flag and of `toLowerCase()`). -/
def strToLower (s : String) : String :=
  { data := s.data.map Char.toLower }

/-- Model of matching `MOVE_COMPONENT.pattern`
(`go (north|south|east|west)` anchored, case-insensitive): the first
capture group of a successful match, lower-cased as the source does
(`matches[1].toLowerCase()`); `none` when the pattern does not match. -/
def moveCapture (text : String) : Option String :=
  let t := strToLower text
  if t == "go north" then some "north"
  else if t == "go south" then some "south"
  else if t == "go east" then some "east"
  else if t == "go west" then some "west"
  else none

/-- Embedding of `MOVE_COMPONENT.pattern.test`. -/
def movePatternTest (text : String) : Bool :=
  (moveCapture text).isSome

/-- Embedding of `MOVE_COMPONENT.parse`. -/
def MOVE_parse (text : String) (actor : Animal) (timestamp : Int) :
    Except String MoveAction :=
  match moveCapture text with
  | none => .error ("Unable to parse MoveAction: " ++ text)
  | some dir =>
    let ret : MoveAction :=
      { actor := actor, timestamp := timestamp, offsetRow := 0, offsetCol := 0 }
    if dir == "north" then .ok { ret with offsetRow := -1 }
    else if dir == "south" then .ok { ret with offsetRow := 1 }
    else if dir == "west" then .ok { ret with offsetCol := -1 }
    else if dir == "east" then .ok { ret with offsetCol := 1 }
    else .error ("Unknown direction: " ++ dir)

/-- Embedding of `MOVE_COMPONENT.validate`. -/
def MOVE_validate (move : MoveAction) (game : Game) : ValidationResult :=
  let newPos : Position :=
    { row := move.actor.row + move.offsetRow, col := move.actor.col + move.offsetCol }
  if !(Map.isWithinMap game.map newPos) then
    { isValid := false, error := some "Out of bounds movement!" }
  else if !(Map.getCell game.map newPos).isRoom then
    { isValid := false, error := some "Desired location is not a room!" }
  else
    { isValid := true }

/-- Modelled from the spec: `describeRoom` renders "a room description to
that participant" (`map/describeRoom.ts` is not in src; the rendered text
is irrelevant to the component logic). -/
def describeRoom (_room : Cell) (_map : GameMap) : String :=
  "You are in a room."

/-- Modelled from the spec: `reveal` marks "the destination cell on that
participant's personal map" (`map/characterMap.ts` is not in src). -/
def reveal (personalMap : List Position) (c : Cell) : List Position :=
  personalMap ++ [{ row := c.row, col := c.col }]

/-- Rendering of a position for log entries (models
`JSON.stringify(pos)`; the exact text is irrelevant to the logic). -/
def posToString (p : Position) : String :=
  "(" ++ toString p.row ++ ", " ++ toString p.col ++ ")"

/-- Embedding of `MOVE_COMPONENT.perform`.  Mutated roots: the actor
(via `moveEntity`) and, for a player with the 'Map' item, the player's
character's personal map inside `game.players`. -/
def MOVE_perform (move : MoveAction) (game : Game) (log : List String) :
    Except String (Animal × Game × PerformResult) :=
  let oldPos : Position := { row := move.actor.row, col := move.actor.col }
  let newPos : Position := { row := oldPos.row + move.offsetRow, col := oldPos.col + move.offsetCol }
  let actor' := moveEntity move.actor newPos
  match move.actor.playerId with
  | none => .ok (actor', game, { log := log, messages := [] })
  | some pid =>
    match game.getPlayer pid with
    | none => .error ("Tried to move a non-present player! Id: " ++ pid)
    | some player =>
      let log' := log ++ [player.name ++ " from " ++ posToString oldPos ++ " to " ++ posToString newPos]
      let messages := [Messaging.createGameMessage "You moved!" [player.id]]
      let newRoom := Map.getCell game.map newPos
      let messages := messages ++ [Messaging.createGameMessage (describeRoom newRoom game.map) [player.id]]
      let game' :=
        if Inventory.hasItem player.character.inventory "Map" then
          { game with
            players :=
              updateFirst (fun p => p.id == pid)
                (fun p => { p with character := { p.character with
                  personalMap := reveal p.character.personalMap (Map.getCell game.map newPos) } })
                game.players }
        else game
      .ok (actor', game', { log := log', messages := messages })

/-- Embedding of `PASS_COMPONENT.validate`: `Boolean(passAction)` on an
object value is always `true`. -/
def PASS_validate (_passAction : PassAction) (_game : Game) : ValidationResult :=
  { isValid := true }

/-- Embedding of `PASS_COMPONENT.perform` ("pass (do nothing!)"): no root
is mutated; the actor and game are returned unchanged. -/
def PASS_perform (passAction : PassAction) (game : Game) (log : List String) :
    Except String (Animal × Game × PerformResult) :=
  match passAction.actor.playerId with
  | none => .ok (passAction.actor, game, { log := log, messages := [] })
  | some pid =>
    match game.getPlayer pid with
    | none => .error ("A non-present player tried to perform a pass action! Id: " ++ pid)
    | some player =>
      .ok (passAction.actor, game,
        { log := log
          messages := [Messaging.createGameMessage "You performed no action." [player.id]] })

/-- Embedding of `REST_COMPONENT.validate`. -/
def REST_validate (restAction : RestAction) (game : Game) : Except String ValidationResult :=
  let actor := restAction.actor
  if Character.isPlayerCharacter actor then
    match Map.getCell game.map actor.pos with
    | .room _ _ hasCamp _ =>
      if hasCamp then .ok { isValid := true }
      else .ok { isValid := false, error := some "Cannot rest without camp setup!" }
    | .barrier _ _ => .error "Expected player to be in room!"
  else
    .ok { isValid := true }

/-- Embedding of `REST_COMPONENT.perform`: the exhaustion meter is
restored (and a message produced) only inside the
`Character.isPlayerCharacter(actor)` branch. -/
def REST_perform (restAction : RestAction) (game : Game) (log : List String) :
    Except String (Animal × Game × PerformResult) :=
  let actor := restAction.actor
  match actor.playerId with
  | none => .ok (actor, game, { log := log, messages := [] })
  | some pid =>
    let wasExhausted := Character.meterIsActive actor.effects.exhaustion
    let actor' :=
      { actor with effects := { actor.effects with
          exhaustion := { actor.effects.exhaustion with
            current := actor.effects.exhaustion.maximum } } }
    match game.getPlayer pid with
    | none => .error ("Tried to perform a RestAction with a non-present player! Id: " ++ pid)
    | some player =>
      let messages :=
        if wasExhausted then
          [Messaging.createGameMessage "You rested at the camp and no longer feel exhausted." [player.id]]
        else
          [Messaging.createGameMessage "You rested at the camp." [player.id]]
      .ok (actor', game, { log := log, messages := messages })

/-- Modelled from the spec: `Weapon.FIST`, the innate unarmed melee weapon
(`items/weapon.ts` is not in src); a melee weapon has no gun data, and its
numeric fields are representative. -/
def Weapon.FIST : Item :=
  { name := "Fist", kind := .weapon { damageAmount := 1, range := 1, gun := none } }

/-- The target-resolution query shared by `ATTACK_COMPONENT.validate` and
`ATTACK_COMPONENT.perform`:
`_.find(game.players, player => isPlaying(player) && isApproximateSubstring(targetName, player.name))`. -/
def findAttackTarget (game : Game) (targetName : String) : Option Player :=
  game.players.find? (fun player => isPlaying player && isApproximateSubstring targetName player.name)

/-- The weapon stack an attack uses: the innate Fist stack for 'Fist',
otherwise the actor's inventory stack for the weapon name (the source
casts the lookup result unchecked; `none` models the `undefined` case). -/
def attackWeaponStack (attackAction : AttackAction) : Option ItemStack :=
  if attackAction.weaponName == "Fist" then
    some (Item.createItemStack Weapon.FIST 1 1)
  else
    Inventory.getItem attackAction.actor.inventory attackAction.weaponName

/-- Embedding of `ATTACK_COMPONENT.validate`. -/
def ATTACK_validate (attackAction : AttackAction) (game : Game) : ValidationResult :=
  let inventory := attackAction.actor.inventory
  if attackAction.weaponName != "Fist" && !(Inventory.hasItem inventory attackAction.weaponName) then
    { isValid := false, error := some ("Missing " ++ attackAction.weaponName ++ " in inventory!") }
  else if attackAction.times ≤ 0 then
    -- source: `!isFinite(attackAction.times) || attackAction.times <= 0`; finiteness always holds here
    { isValid := false
      error := some ("Bad number of times attacking (" ++ toString attackAction.times ++ ")!") }
  else
    let actor := attackAction.actor
    match attackWeaponStack attackAction with
    | none =>
      -- unchecked cast in the source: `Inventory.getItem(...) as ItemStack<AttackWeapon>`
      -- is `undefined` here and every later field access would fault; unreachable after
      -- the `hasItem` guard above
      { isValid := false, error := some ("Missing " ++ attackAction.weaponName ++ " in inventory!") }
    | some weaponStack =>
      match findAttackTarget game attackAction.targetName with
      | none =>
        { isValid := false
          error := some ("No player with name '" ++ attackAction.targetName ++ "'!") }
      | some targetPlayer =>
        let actualDistance :=
          Cell.cardinalPositionDistance (Map.getCell game.map actor.pos)
            (Map.getCell game.map targetPlayer.character.pos)
        if weaponStack.item.range < actualDistance then
          { isValid := false
            error := some (targetPlayer.name ++ " is out of " ++ weaponStack.item.name ++ "'s attack range!") }
        else if targetPlayer.character.row == actor.row || targetPlayer.character.col == actor.col then
          let cellsInBetween :=
            (Cell.getPositionsBetween targetPlayer.character.pos actor.pos).map
              (fun pos => Map.getCell game.map pos)
          if cellsInBetween.any (fun cell => cell.isBarrier) then
            { isValid := false, error := some "Your shot is obstructed by a barrier!" }
          else if weaponStack.item.isWeaponGun then
            if Inventory.hasItem inventory weaponStack.item.bullet then
              match Inventory.getItem inventory weaponStack.item.bullet with
              | some bulletStack =>
                if bulletStack.stackAmount < attackAction.times then
                  { isValid := false
                    error := some ("You cannot shoot " ++ toString attackAction.times ++
                      " time(s) because you only have " ++ toString bulletStack.stackAmount ++ " bullet(s)!") }
                else
                  { isValid := true }
              | none =>
                -- unreachable: guarded by `hasItem`
                { isValid := true }
            else
              { isValid := false
                error := some ("You don't have " ++ weaponStack.item.bullet ++ "s for your " ++
                  weaponStack.item.name ++ "!") }
          else
            { isValid := true }
        else
          { isValid := false, error := some "You can only shoot in straight lines!" }

/-- The accuracy-adjusted effective strike count of
`ATTACK_COMPONENT.perform`:
`Math.floor(attackAction.times * accuracyPercentage / 100.0)` with
`accuracyPercentage = weaponStack.item.accuracy` for guns and `100` for
melee weapons. -/
def effectiveStrikes (weapon : Item) (times : Int) : Int :=
  let accuracyPercentage := if weapon.isWeaponGun then weapon.accuracy else 100
  Int.fdiv (times * accuracyPercentage) 100

/-- The health update the attack applies to the target player:
`targetPlayer.character.stats.health = Math.max(0, health - totalDamage)`. -/
def damagePlayer (totalDamage : Int) (p : Player) : Player :=
  { p with character := { p.character with stats := { p.character.stats with
      health := max 0 (p.character.stats.health - totalDamage) } } }

/-- Embedding of `ATTACK_COMPONENT.perform`.  Mutated roots: the target
player inside `game.players` (health clamp) and the actor (ammunition
removal for guns, strength/agility degradation for melee).  The initial
`stringIsAttackWeaponName` re-check of the source always succeeds on a
parsed action and is omitted. -/
def ATTACK_perform (attackAction : AttackAction) (game : Game) (log : List String) :
    Except String (Animal × Game × PerformResult) :=
  match attackWeaponStack attackAction with
  | none => .error "TypeError: cannot read properties of undefined (weaponStack)"
  | some weaponStack =>
    let actualTimesAttacked := effectiveStrikes weaponStack.item attackAction.times
    match findAttackTarget game attackAction.targetName with
    | none => .error ("Expected target player \"" ++ attackAction.targetName ++ "\" to exist!")
    | some targetPlayer =>
      let totalDamage := actualTimesAttacked * weaponStack.item.damageAmount
      let game' :=
        { game with
          players :=
            updateFirst
              (fun player => isPlaying player && isApproximateSubstring attackAction.targetName player.name)
              (damagePlayer totalDamage) game.players }
      match attackAction.actor.playerId with
      | none => .error "Expected attacker to be a player!"
      | some pid =>
        match game.getPlayer pid with
        | none => .error "Expected AttackAction actor to exist!"
        | some actorPlayer =>
          let messages :=
            [Messaging.createGameMessage
              ("You attacked " ++ targetPlayer.name ++ " " ++ toString actualTimesAttacked ++
                " time(s) for a total of " ++ toString totalDamage ++ " damage!") [actorPlayer.id]]
          let attackerName := actorPlayer.name
          let messages := messages ++
            [Messaging.createGameMessage
              (attackerName ++ " attacked you for " ++ toString totalDamage ++ " damage!")
              [targetPlayer.id]]
          let newTargetHealth := max 0 (targetPlayer.character.stats.health - totalDamage)
          let messages := messages ++
            (if newTargetHealth ≤ 0 then
              [Messaging.createGameMessage ("You killed " ++ targetPlayer.name ++ "!") [actorPlayer.id],
               Messaging.createGameMessage ("You were killed by " ++ attackerName) [targetPlayer.id]]
            else [])
          let actor' :=
            if weaponStack.item.isWeaponGun then
              { attackAction.actor with
                inventory :=
                  (Inventory.removeFromInventory attackAction.actor.inventory
                    weaponStack.item.bullet attackAction.times).1 }
            else
              { attackAction.actor with stats := { attackAction.actor.stats with
                  strength := attackAction.actor.stats.strength - actualTimesAttacked
                  agility := attackAction.actor.stats.agility - attackAction.times } }
          .ok (actor', game', { log := log, messages := messages })

/-- Embedding of `INGEST_COMPONENT.validate`. -/
def INGEST_validate (ingestAction : IngestAction) (_game : Game) : ValidationResult :=
  if Inventory.hasItem ingestAction.actor.inventory ingestAction.itemName then
    { isValid := true }
  else
    { isValid := false, error := some ("Missing " ++ ingestAction.itemName ++ " in inventory!") }

/-- Embedding of `INGEST_COMPONENT.perform`.  Mutated root: the actor
(inventory removal, stat deltas, effect updates). -/
def INGEST_perform (ingestAction : IngestAction) (game : Game) (log : List String) :
    Except String (Animal × Game × PerformResult) :=
  let removalReturn :=
    Inventory.removeFromInventory ingestAction.actor.inventory ingestAction.itemName 1
  match removalReturn.2 with
  | none => .error "TypeError: cannot read properties of undefined (itemStack)"
  | some itemStack =>
    let actor0 := { ingestAction.actor with inventory := removalReturn.1 }
    let item := itemStack.item
    match item.kind with
    | .ingestible props =>
      let actor1 := { actor0 with stats := Stats.changeStats actor0.stats props.stats }
      match actor1.playerId with
      | none => .ok (actor1, game, { log := log, messages := [] })
      | some pid =>
        match game.getPlayer pid with
        | none => .error ("Tried to perform an IngestAction with a non-present player! Id: " ++ pid)
        | some player =>
          let st1 :=
            if props.curesPoisoning && actor1.effects.poison.isActive then
              ({ actor1 with effects := { actor1.effects with
                   poison := { actor1.effects.poison with isActive := false } } },
               [Messaging.createGameMessage "You have been cured of poisoning!" [player.id]],
               [player.name ++ " poison removed"])
            else (actor1, [], [])
          let actor2 := st1.1
          let st2 :=
            if props.isPoisoned then
              ({ actor2 with effects := { actor2.effects with
                   poison := { actor2.effects.poison with isActive := true } } },
               [Messaging.createGameMessage "You have been poisoned!" [player.id]],
               [player.name ++ " was poisoned"])
            else (actor2, [], [])
          let actor3 := st2.1
          let st3 :=
            if props.isAddictive && game.rngFlip then
              ({ actor3 with effects := { actor3.effects with
                   addiction := { actor3.effects.addiction with isActive := true } } },
               [Messaging.createGameMessage "You have become addicted!" [player.id]],
               [player.name ++ " became addicted"])
            else (actor3, [], [])
          let actor4 := st3.1
          let actor5 :=
            if props.givesImmortality then
              { actor4 with effects := { actor4.effects with
                  immortality := { actor4.effects.immortality with isActive := true } } }
            else actor4
          let actor6 :=
            { actor5 with effects := { actor5.effects with
                addiction := { actor5.effects.addiction with
                  current := Character.updateMeterCurrentValue actor5.effects.addiction props.addictionRelief } } }
          let actor7 :=
            { actor6 with effects := { actor6.effects with
                exhaustion := { actor6.effects.exhaustion with
                  current := Character.updateMeterCurrentValue actor6.effects.exhaustion props.exhaustionRelief } } }
          let actor8 :=
            { actor7 with effects := { actor7.effects with
                hunger := { actor7.effects.hunger with
                  current := Character.updateMeterCurrentValue actor7.effects.hunger props.hungerRelief } } }
          .ok (actor8, game,
            { log := log ++ st1.2.2 ++ st2.2.2 ++ st3.2.2
              messages := st1.2.1 ++ st2.2.1 ++ st3.2.1 })
    | _ =>
      .error ("Tried to ingest an item that is not ingestible: '" ++ item.name ++ "'")

/-- Embedding of `PICKUP_ACTION.validate`. -/
def PICKUP_validate (pickupAction : ItemTransaction) (game : Game) :
    Except String ValidationResult :=
  match Map.getCell game.map pickupAction.actor.pos with
  | .barrier _ _ => .error "Actor is not in a room!"
  | .room _ _ _ cellItems =>
    match Item.getItem cellItems pickupAction.itemName with
    | none =>
      -- `!Item.hasItem(cell.items, ...)` branch; `hasItem` agrees with `getItem`
      .ok { isValid := false, error := some (pickupAction.itemName ++ " is not in the room!") }
    | some stackToPickUp =>
      let amountToPickUp? : Except ValidationResult Int :=
        match pickupAction.transactionAmount with
        | some t =>
          -- source: `isFinite(transactionAmount)` always holds in the model
          if t < 1 then
            .error { isValid := false, error := some "Transaction amount must be positive!" }
          else .ok t
        | none => .ok stackToPickUp.stackAmount
      match amountToPickUp? with
      | .error r => .ok r
      | .ok amountToPickUp =>
        if stackToPickUp.stackAmount < amountToPickUp then
          .ok { isValid := false
                error := some ("There is only " ++ toString stackToPickUp.stackAmount ++ " " ++
                  stackToPickUp.item.name ++ "(s) in the room!") }
        else if Inventory.inventoryIsFull pickupAction.actor.inventory then
          if Inventory.hasItem pickupAction.actor.inventory pickupAction.itemName then
            match Inventory.getItem pickupAction.actor.inventory pickupAction.itemName with
            | some playerStack =>
              if Item.stackIsFull playerStack then
                .ok { isValid := false
                      error := some ("Your current stack of " ++ pickupAction.itemName ++ " is full!") }
              else if playerStack.maxStackAmount < playerStack.stackAmount + amountToPickUp then
                .ok { isValid := false
                      error := some ("You can only hold " ++ toString playerStack.maxStackAmount ++
                        " " ++ playerStack.item.name ++ "(s)!") }
              else
                .ok { isValid := true }
            | none =>
              -- unreachable: guarded by `hasItem`
              .ok { isValid := true }
          else
            .ok { isValid := false, error := some "You inventory is full!" }
        else
          .ok { isValid := true }

/-- Embedding of `PASS_COMPONENT.pattern.test` (`pass` anchored,
case-insensitive). -/
def passPatternTest (text : String) : Bool :=
  strToLower text == "pass"

/-- Embedding of `REST_COMPONENT.pattern.test` (`rest` anchored,
case-insensitive). -/
def restPatternTest (text : String) : Bool :=
  strToLower text == "rest"

/-- Modelled from the spec: `Ingestible.names`, the recognized consumable
names interpolated into the Ingest pattern (`items/ingestible.ts` is not
in src); a representative lower-case list. -/
def ingestibleNames : List String :=
  ["stew", "water", "medicine", "alcohol", "opium"]

/-- Modelled from the spec: `Weapon.namesForAttacking`, the weapon names
interpolated into the Attack pattern (`items/weapon.ts` is not in src);
the test suite shows 'fist' is accepted; a representative lower-case
list of single-word names. -/
def namesForAttacking : List String :=
  ["fist", "knife", "rifle", "revolver"]

/-- Modelled from the spec: `itemNames`, the item names interpolated into
the Pickup and Drop patterns (`items/itemName.ts` is not in src); a
representative lower-case list of single-word names. -/
def itemNamesList : List String :=
  ["knife", "rifle", "revolver", "bullet", "map", "stew", "water", "medicine", "alcohol", "opium"]

/-- The verbs of the Ingest pattern alternation. -/
def ingestVerbs : List String :=
  ["eat", "consume", "ingest", "use", "drink", "quaff"]

/-- Embedding of `INGEST_COMPONENT.pattern.test`
(`(eat|consume|ingest|use|drink|quaff) (name|...)` anchored,
case-insensitive). -/
def ingestPatternTest (text : String) : Bool :=
  let t := strToLower text
  ingestVerbs.any (fun v => ingestibleNames.any (fun n => t == v ++ " " ++ n))

/-- Word characters of the regex class `\w`. -/
def isWordChar (c : Char) : Bool :=
  c.isAlphanum || c == '_'

/-- A non-empty token of `\w+`. -/
def isWordToken (s : String) : Bool :=
  !s.isEmpty && s.data.all isWordChar

/-- A non-empty token of `\d+`. -/
def isDigitToken (s : String) : Bool :=
  !s.isEmpty && s.data.all Char.isDigit

/-- Embedding of `ATTACK_COMPONENT.pattern.test`
(`attack (\w+) (weapon|...) (\d+)` anchored, case-insensitive; the
literal single spaces of the pattern are modelled by exact token
splitting). -/
def attackPatternTest (text : String) : Bool :=
  match (strToLower text).splitOn " " with
  | [w0, target, weapon, times] =>
    w0 == "attack" && isWordToken target && namesForAttacking.contains weapon && isDigitToken times
  | _ => false

/-- Tail of the Pickup pattern after the verb:
`(\s+(\d+))?\s+(itemName|...)`; whitespace runs are modelled as single
spaces. -/
def pickupRestTest (tokens : List String) : Bool :=
  match tokens with
  | [item] => itemNamesList.contains item
  | [amount, item] => isDigitToken amount && itemNamesList.contains item
  | _ => false

/-- Embedding of `PICKUP_ACTION.pattern.test`
(`(pick up|get|grab)(\s+(\d+))?\s+(itemName|...)` anchored,
case-insensitive). -/
def pickupPatternTest (text : String) : Bool :=
  match (strToLower text).splitOn " " with
  | "pick" :: "up" :: rest => pickupRestTest rest
  | "get" :: rest => pickupRestTest rest
  | "grab" :: rest => pickupRestTest rest
  | _ => false

/-- Embedding of `DROP_ACTION.pattern.test`
(`drop(\s+(\d+))?\s+(itemName|...)`, case-insensitive and UNANCHORED in
the source; modelled as an anywhere-in-the-token-stream match with the
trailing tokens unconstrained). -/
def dropPatternTest (text : String) : Bool :=
  let tokens := (strToLower text).splitOn " "
  (List.range tokens.length).any (fun i =>
    match tokens.drop i with
    | "drop" :: item :: _ => itemNamesList.contains item
    | _ => false)
  || (List.range tokens.length).any (fun i =>
    match tokens.drop i with
    | "drop" :: amount :: item :: _ => isDigitToken amount && itemNamesList.contains item
    | _ => false)

/-- A registry entry: the recognition pattern and the component key of one
action component (the parse/validate/perform functions of each component
are the standalone definitions above). -/
structure ParserMeta where
  patternTest : String → Bool
  componentKey : ComponentKey

/-- Embedding of the `PARSERS` registry object in its declared property
order: Move, Pass, Rest, Ingest, Attack, Pickup, Drop. -/
def PARSERS : List ParserMeta :=
  [{ patternTest := movePatternTest, componentKey := .Move },
   { patternTest := passPatternTest, componentKey := .Pass },
   { patternTest := restPatternTest, componentKey := .Rest },
   { patternTest := ingestPatternTest, componentKey := .Ingest },
   { patternTest := attackPatternTest, componentKey := .Attack },
   { patternTest := pickupPatternTest, componentKey := .Pickup },
   { patternTest := dropPatternTest, componentKey := .Drop }]

/-- Embedding of `getComponentByText`:
`_.find(PARSERS, comp => comp.pattern.test(text))` iterates the registry
properties in declared order. -/
def getComponentByText (text : String) : Option ParserMeta :=
  PARSERS.find? (fun comp => comp.patternTest text)

/-- Embedding of `getComponentByKey`: `PARSERS[key]` property lookup — the
registry binds each component under the property equal to its
`componentKey`; `none` models the `throw` on a missing key. -/
def getComponentByKey (key : ComponentKey) : Option ParserMeta :=
  PARSERS.find? (fun comp => comp.componentKey == key)

/-- Embedding of `isParsableAction`. -/
def isParsableAction (text : String) : Bool :=
  (getComponentByText text).isSome

/-- Effect block with all meters inactive and full. -/
def exEffects : Effects :=
  { exhaustion := { isActive := false, current := 10, maximum := 10 }
    poison := { isActive := false, current := 10, maximum := 10 }
    addiction := { isActive := false, current := 10, maximum := 10 }
    immortality := { isActive := false, current := 10, maximum := 10 }
    hunger := { isActive := false, current := 10, maximum := 10 } }

/-- Effect block with an active, partially drained exhaustion meter. -/
def exEffectsTired : Effects :=
  { exEffects with exhaustion := { isActive := true, current := 2, maximum := 10 } }

/-- A melee weapon item. -/
def exKnife : Item :=
  { name := "Knife", kind := .weapon { damageAmount := 2, range := 1, gun := none } }

/-- A gun weapon item consuming 'Bullet' ammunition at 50% accuracy. -/
def exRifle : Item :=
  { name := "Rifle", kind := .weapon { damageAmount := 3, range := 5, gun := some { accuracy := 50, bullet := "Bullet" } } }

/-- Plain ammunition item. -/
def exBulletItem : Item :=
  { name := "Bullet", kind := .plain }

/-- An item carrying a consumable name but no ingestible payload (the
contract-violation input of the Ingest component). -/
def exStew : Item :=
  { name := "Stew", kind := .plain }

/-- One-room map with a room at the origin. -/
def exMap1 : GameMap :=
  { grid := [[.room 0 0 false []]] }

/-- Two-room map: rooms at (0,0) and (1,0). -/
def exMapMove : GameMap :=
  { grid := [[.room 0 0 false []], [.room 1 0 false []]] }

/-- One-room map whose room holds a stack of 3 knives. -/
def exMapPickup : GameMap :=
  { grid := [[.room 0 0 false [{ item := exKnife, stackAmount := 3, maxStackAmount := 10 }]]] }

/-- Player character of Alice (melee attacker example). -/
def exAliceChar : Animal :=
  { row := 0, col := 0, stats := { health := 30, intelligence := 10, strength := 20, agility := 40 }
    inventory := { itemStacks := [], maximumCapacity := 4 }
    playerId := some "alice", effects := exEffects, personalMap := [] }

/-- Player character of Bob (attack target example, 3 health). -/
def exBobChar : Animal :=
  { row := 0, col := 0, stats := { health := 3, intelligence := 10, strength := 10, agility := 10 }
    inventory := { itemStacks := [], maximumCapacity := 4 }
    playerId := some "bob", effects := exEffects, personalMap := [] }

/-- Playing participant Alice. -/
def exAlice : Player :=
  { id := "alice", name := "Alice", playing := true, character := exAliceChar }

/-- Playing participant Bob. -/
def exBob : Player :=
  { id := "bob", name := "Bob", playing := true, character := exBobChar }

/-- Game with Alice and Bob co-located in the single room. -/
def exAttackGame : Game :=
  { map := exMap1, players := [exAlice, exBob], rngFlip := false }

/-- Alice attacks Bob with the Fist, 5 strikes. -/
def exAttack : AttackAction :=
  { actor := exAliceChar, timestamp := 0, targetName := "bob", weaponName := "Fist", times := 5 }

/-- Non-player animal (no controlling participant). -/
def exWolf : Animal :=
  { row := 0, col := 0, stats := { health := 20, intelligence := 5, strength := 10, agility := 10 }
    inventory := { itemStacks := [], maximumCapacity := 4 }
    playerId := none, effects := exEffects, personalMap := [] }

/-- The non-player animal attacks Bob with the Fist. -/
def exWolfAttack : AttackAction :=
  { actor := exWolf, timestamp := 0, targetName := "bob", weaponName := "Fist", times := 1 }

/-- Rifle stack held by the gun attacker. -/
def exRifleStack : ItemStack :=
  { item := exRifle, stackAmount := 1, maxStackAmount := 1 }

/-- Bullet stack held by the gun attacker: 5 bullets. -/
def exBulletStack : ItemStack :=
  { item := exBulletItem, stackAmount := 5, maxStackAmount := 10 }

/-- Player character of Carl (gun attacker example). -/
def exGunChar : Animal :=
  { row := 0, col := 0, stats := { health := 30, intelligence := 10, strength := 20, agility := 40 }
    inventory := { itemStacks := [exRifleStack, exBulletStack], maximumCapacity := 4 }
    playerId := some "carl", effects := exEffects, personalMap := [] }

/-- Playing participant Carl. -/
def exCarl : Player :=
  { id := "carl", name := "Carl", playing := true, character := exGunChar }

/-- Game with Carl and Bob co-located in the single room. -/
def exGunGame : Game :=
  { map := exMap1, players := [exCarl, exBob], rngFlip := false }

/-- Carl shoots Bob with the Rifle, 2 requested shots (50% accuracy). -/
def exGunAttack : AttackAction :=
  { actor := exGunChar, timestamp := 0, targetName := "bob", weaponName := "Rifle", times := 2 }

/-- Player character of Anna. -/
def exAnnaChar : Animal :=
  { row := 0, col := 0, stats := { health := 25, intelligence := 10, strength := 10, agility := 10 }
    inventory := { itemStacks := [], maximumCapacity := 4 }
    playerId := some "anna", effects := exEffects, personalMap := [] }

/-- Player character of Andre. -/
def exAndreChar : Animal :=
  { row := 0, col := 0, stats := { health := 25, intelligence := 10, strength := 10, agility := 10 }
    inventory := { itemStacks := [], maximumCapacity := 4 }
    playerId := some "andre", effects := exEffects, personalMap := [] }

/-- Playing participant Anna. -/
def exAnna : Player :=
  { id := "anna", name := "Anna", playing := true, character := exAnnaChar }

/-- Playing participant Andre. -/
def exAndre : Player :=
  { id := "andre", name := "Andre", playing := true, character := exAndreChar }

/-- Game in which the fragment 'an' matches two distinct playing
participants. -/
def exAmbiguousGame : Game :=
  { map := exMap1, players := [exAnna, exAndre], rngFlip := false }

/-- Attack addressed by the ambiguous fragment 'an'. -/
def exAmbiguousAttack : AttackAction :=
  { actor := exAnnaChar, timestamp := 0, targetName := "an", weaponName := "Fist", times := 1 }

/-- Pickup actor with a partial stack of 4/5 knives and a non-full
inventory (1 of 5 slots used). -/
def exPickChar : Animal :=
  { row := 0, col := 0, stats := { health := 30, intelligence := 10, strength := 10, agility := 10 }
    inventory := { itemStacks := [{ item := exKnife, stackAmount := 4, maxStackAmount := 5 }], maximumCapacity := 5 }
    playerId := some "pia", effects := exEffects, personalMap := [] }

/-- Game for the non-full-inventory pickup. -/
def exPickGame : Game :=
  { map := exMapPickup, players := [{ id := "pia", name := "Pia", playing := true, character := exPickChar }], rngFlip := false }

/-- Pickup of 3 knives that would overflow the partial 4/5 stack. -/
def exPickup : ItemTransaction :=
  { actor := exPickChar, timestamp := 0, itemName := "Knife", transactionAmount := some 3 }

/-- Pickup actor with the same 4/5 knife stack but a full inventory
(1 of 1 slots used). -/
def exPickFullChar : Animal :=
  { row := 0, col := 0, stats := { health := 30, intelligence := 10, strength := 10, agility := 10 }
    inventory := { itemStacks := [{ item := exKnife, stackAmount := 4, maxStackAmount := 5 }], maximumCapacity := 1 }
    playerId := some "pia", effects := exEffects, personalMap := [] }

/-- Game for the full-inventory pickup. -/
def exPickFullGame : Game :=
  { map := exMapPickup, players := [{ id := "pia", name := "Pia", playing := true, character := exPickFullChar }], rngFlip := false }

/-- Overflowing pickup of 3 knives with a full inventory. -/
def exPickupFull : ItemTransaction :=
  { actor := exPickFullChar, timestamp := 0, itemName := "Knife", transactionAmount := some 3 }

/-- Non-player animal with an active, drained exhaustion meter. -/
def exWolfTired : Animal :=
  { exWolf with effects := exEffectsTired }

/-- Rest action of the tired non-player animal. -/
def exWolfRest : RestAction :=
  { actor := exWolfTired, timestamp := 0 }

/-- Game with no players (sufficient for a non-player rest). -/
def exEmptyGame : Game :=
  { map := exMap1, players := [], rngFlip := false }

/-- Player character of Dina with an active exhaustion meter. -/
def exDinaChar : Animal :=
  { row := 0, col := 0, stats := { health := 30, intelligence := 10, strength := 10, agility := 10 }
    inventory := { itemStacks := [], maximumCapacity := 4 }
    playerId := some "dina", effects := exEffectsTired, personalMap := [] }

/-- Playing participant Dina. -/
def exDina : Player :=
  { id := "dina", name := "Dina", playing := true, character := exDinaChar }

/-- Game containing Dina. -/
def exDinaGame : Game :=
  { map := exMap1, players := [exDina], rngFlip := false }

/-- Rest action of Dina. -/
def exDinaRest : RestAction :=
  { actor := exDinaChar, timestamp := 0 }

/-- Pass action of Dina. -/
def exDinaPass : PassAction :=
  { actor := exDinaChar, timestamp := 0 }

/-- Non-player move actor at the origin of the two-room map. -/
def exMoveActor : Animal :=
  { row := 0, col := 0, stats := { health := 30, intelligence := 10, strength := 10, agility := 10 }
    inventory := { itemStacks := [], maximumCapacity := 4 }
    playerId := none, effects := exEffects, personalMap := [] }

/-- Move one cell south on the two-room map. -/
def exMove : MoveAction :=
  { actor := exMoveActor, timestamp := 0, offsetRow := 1, offsetCol := 0 }

/-- Game on the two-room map. -/
def exMoveGame : Game :=
  { map := exMapMove, players := [], rngFlip := false }

/-- Ingest actor holding a 'Stew' stack whose item is not ingestible. -/
def exIngestChar : Animal :=
  { row := 0, col := 0, stats := { health := 30, intelligence := 10, strength := 10, agility := 10 }
    inventory := { itemStacks := [{ item := exStew, stackAmount := 2, maxStackAmount := 5 }], maximumCapacity := 4 }
    playerId := some "elia", effects := exEffects, personalMap := [] }

/-- Game containing the ingest actor's player. -/
def exIngestGame : Game :=
  { map := exMap1, players := [{ id := "elia", name := "Elia", playing := true, character := exIngestChar }], rngFlip := false }

/-- Ingest action naming the non-ingestible 'Stew'. -/
def exIngest : IngestAction :=
  { actor := exIngestChar, timestamp := 0, itemName := "Stew" }

/-- Alice's character after the melee attack: strength reduced by the
effective strikes, agility by the requested strikes. -/
def exAttackActorOut : Animal :=
  { exAliceChar with stats := { exAliceChar.stats with strength := 15, agility := 35 } }

/-- Game state after Alice's attack: the first playing 'bob' match takes
5 damage. -/
def exAttackGameOut : Game :=
  { exAttackGame with
      players := updateFirst
        (fun player => isPlaying player && isApproximateSubstring "bob" player.name)
        (damagePlayer 5) exAttackGame.players }

/-- Messages of Alice's attack (5 effective strikes, 5 total damage,
lethal). -/
def exAttackRes : PerformResult :=
  { log := []
    messages :=
        [Messaging.createGameMessage "You attacked Bob 5 time(s) for a total of 5 damage!" ["alice"],
         Messaging.createGameMessage "Alice attacked you for 5 damage!" ["bob"],
         Messaging.createGameMessage "You killed Bob!" ["alice"],
         Messaging.createGameMessage "You were killed by Alice" ["bob"]] }

/-- Carl's character after the rifle attack: 2 bullets consumed (the
requested count), stats untouched. -/
def exGunActorOut : Animal :=
  { exGunChar with
      inventory :=
        { itemStacks := [exRifleStack, { exBulletStack with stackAmount := 3 }]
          maximumCapacity := 4 } }

/-- Game state after Carl's attack: the first playing 'bob' match takes
3 damage (1 effective strike of damage 3). -/
def exGunGameOut : Game :=
  { exGunGame with
      players := updateFirst
        (fun player => isPlaying player && isApproximateSubstring "bob" player.name)
        (damagePlayer 3) exGunGame.players }

/-- Messages of Carl's attack (1 effective strike, 3 total damage,
lethal). -/
def exGunRes : PerformResult :=
  { log := []
    messages :=
        [Messaging.createGameMessage "You attacked Bob 1 time(s) for a total of 3 damage!" ["carl"],
         Messaging.createGameMessage "Carl attacked you for 3 damage!" ["bob"],
         Messaging.createGameMessage "You killed Bob!" ["carl"],
         Messaging.createGameMessage "You were killed by Carl" ["bob"]] }

/-- Replacing the first element satisfying `p` by its image under a
`p`-preserving function commutes with `find?`. -/
theorem find_updateFirst {α : Type} (p : α → Bool) (f : α → α)
    (hpres : ∀ x, p x = true → p (f x) = true) :
    ∀ l : List α, List.find? p (updateFirst p f l) = (List.find? p l).map f := by
  intro l
  induction l with
  | nil => rfl
  | cons x xs ih =>
    by_cases hx : p x = true
    · simp [updateFirst, hx, List.find?_cons_of_pos, hpres x hx]
    · simp only [updateFirst, hx, if_false, Bool.false_eq_true, ite_false]
      rw [List.find?_cons_of_neg _ (by simp [hx]), List.find?_cons_of_neg _ (by simp [hx]), ih]

/-- Removing `amount` units of an item present with at least that amount
changes the summed stack amount of that item by exactly `amount`
(stack-list level). -/
theorem sumAmount_remove (name : String) (amount : Int) :
    ∀ (l : List ItemStack) (bs : ItemStack),
      Item.getItem l name = some bs →
      amount ≤ bs.stackAmount →
      (∀ st ∈ l, 0 < st.stackAmount) →
      ((Item.removeEmptyStacks (updateFirst (fun st => st.item.name == name)
          (fun st => { st with stackAmount := st.stackAmount - amount }) l)).filter
            (fun s => s.item.name == name)).foldr (fun s acc => s.stackAmount + acc) 0 =
        ((l.filter (fun s => s.item.name == name)).foldr
            (fun s acc => s.stackAmount + acc) 0) - amount := by
  intro l
  induction l with
  | nil => intro bs hget _ _; simp [Item.getItem] at hget
  | cons x xs ih =>
    intro bs hget hle hpos
    have hposx : 0 < x.stackAmount := hpos x (List.mem_cons_self x xs)
    have hposxs : ∀ st ∈ xs, 0 < st.stackAmount := fun st hst => hpos st (List.mem_cons_of_mem x hst)
    have hfilterxs : xs.filter (fun s => decide (0 < s.stackAmount)) = xs :=
      List.filter_eq_self.mpr (fun a ha => by simpa using hposxs a ha)
    by_cases hx : (x.item.name == name) = true
    · have hfind : List.find? (fun s => s.item.name == name) (x :: xs) = some x := by
        rw [List.find?_cons]
        simp [hx]
      have hbsx : bs = x := by
        rw [Item.getItem, hfind] at hget
        exact (Option.some_inj.mp hget).symm
      subst hbsx
      have hupd : updateFirst (fun st => st.item.name == name)
          (fun st => { st with stackAmount := st.stackAmount - amount }) (bs :: xs) =
          { bs with stackAmount := bs.stackAmount - amount } :: xs := by
        simp [updateFirst, hx]
      have hrhs : List.filter (fun s => s.item.name == name) (bs :: xs) =
          bs :: List.filter (fun s => s.item.name == name) xs :=
        List.filter_cons_of_pos hx
      rw [hupd, Item.removeEmptyStacks, hrhs]
      by_cases hz : (0 : Int) < bs.stackAmount - amount
      · have h1 : List.filter (fun s => decide (0 < s.stackAmount))
            ({ bs with stackAmount := bs.stackAmount - amount } :: xs) =
            { bs with stackAmount := bs.stackAmount - amount } :: xs := by
          rw [List.filter_cons_of_pos (by simpa using hz), hfilterxs]
        rw [h1, List.filter_cons_of_pos (by simpa using hx)]
        simp only [List.foldr_cons]
        omega
      · have h1 : List.filter (fun s => decide (0 < s.stackAmount))
            ({ bs with stackAmount := bs.stackAmount - amount } :: xs) = xs := by
          rw [List.filter_cons_of_neg (by simpa using hz), hfilterxs]
        rw [h1]
        simp only [List.foldr_cons]
        omega
    · have hget2 : Item.getItem xs name = some bs := by
        rw [Item.getItem, List.find?_cons_of_neg _ (by simp [hx])] at hget
        exact hget
      have ihx := ih bs hget2 hle hposxs
      have hupd : updateFirst (fun st => st.item.name == name)
          (fun st => { st with stackAmount := st.stackAmount - amount }) (x :: xs) =
          x :: updateFirst (fun st => st.item.name == name)
            (fun st => { st with stackAmount := st.stackAmount - amount }) xs := by
        simp [updateFirst, hx]
      have hrm : Item.removeEmptyStacks (x :: updateFirst (fun st => st.item.name == name)
          (fun st => { st with stackAmount := st.stackAmount - amount }) xs) =
          x :: Item.removeEmptyStacks (updateFirst (fun st => st.item.name == name)
            (fun st => { st with stackAmount := st.stackAmount - amount }) xs) := by
        rw [Item.removeEmptyStacks, Item.removeEmptyStacks,
          List.filter_cons_of_pos (by simpa using hposx)]
      rw [hupd, hrm, List.filter_cons_of_neg (by simp [hx]), List.filter_cons_of_neg (by simp [hx])]
      exact ihx

/-- Removing `amount` units of an item present with at least that amount
from an all-positive inventory lowers the held amount by exactly
`amount`. -/
theorem invAmount_removeFromInventory
    (inv : Inventory) (name : String) (amount : Int) (bs : ItemStack)
    (hbs : Inventory.getItem inv name = some bs)
    (hle : amount ≤ bs.stackAmount)
    (hpos : ∀ st ∈ inv.itemStacks, 0 < st.stackAmount) :
    Inventory.invAmount (Inventory.removeFromInventory inv name amount).1 name =
      Inventory.invAmount inv name - amount := by
  unfold Inventory.getItem at hbs
  unfold Inventory.removeFromInventory
  rw [hbs]
  unfold Inventory.invAmount
  exact sumAmount_remove name amount inv.itemStacks bs hbs hle hpos

/-- C1: for every performed Attack with weapon stack `ws` and target `tp`,
the effective strike count is floor(times × accuracy / 100) for guns and
exactly `times` for melee (accuracy 100), the total damage is
effectiveStrikes × damageAmount, and the target ends with health
max(0, prior − totalDamage). -/
theorem C1_attack_damage (a : AttackAction) (g : Game) (log : List String)
    (ws : ItemStack) (tp : Player) (actor' : Animal) (g' : Game) (res : PerformResult)
    (hws : attackWeaponStack a = some ws)
    (htp : findAttackTarget g a.targetName = some tp)
    (hperf : ATTACK_perform a g log = .ok (actor', g', res)) :
    findAttackTarget g' a.targetName =
      some (damagePlayer (effectiveStrikes ws.item a.times * ws.item.damageAmount) tp) ∧
    ((ws.item.isWeaponGun = false ∨ ws.item.accuracy = 100) →
      effectiveStrikes ws.item a.times = a.times) := by
  constructor
  · unfold ATTACK_perform at hperf
    rw [hws, htp] at hperf
    cases hpid : a.actor.playerId with
    | none => rw [hpid] at hperf; dsimp only at hperf; simp at hperf
    | some pid =>
      rw [hpid] at hperf
      dsimp only at hperf
      cases hgp : g.getPlayer pid with
      | none => rw [hgp] at hperf; dsimp only at hperf; simp at hperf
      | some actorPlayer =>
        rw [hgp] at hperf
        dsimp only at hperf
        simp only [Except.ok.injEq, Prod.mk.injEq] at hperf
        obtain ⟨-, hg', -⟩ := hperf
        subst hg'
        unfold findAttackTarget at htp ⊢
        rw [find_updateFirst
          (fun player => isPlaying player && isApproximateSubstring a.targetName player.name)
          (damagePlayer (effectiveStrikes ws.item a.times * ws.item.damageAmount))
          (fun x hx => hx) g.players, htp]
        rfl
  · intro hcase
    unfold effectiveStrikes
    rcases hcase with hmelee | hacc
    · rw [hmelee]
      simp only [Bool.false_eq_true, if_false, ite_false]
      exact Int.mul_fdiv_cancel a.times (by norm_num)
    · rw [hacc]
      by_cases hg : ws.item.isWeaponGun = true <;>
        simp only [hg, if_true, if_false, ite_true, ite_false] <;>
        exact Int.mul_fdiv_cancel a.times (by norm_num)

/-- C2 (amended): Rest restores the exhaustion meter to its maximum for a
participant-controlled actor (with the message depending on whether
exhaustion was previously active); a non-participant actor is left
entirely unchanged by Rest. -/
theorem C2_rest_amended :
    ∀ (a : RestAction) (g : Game) (log : List String),
      (a.actor.playerId = none →
        REST_perform a g log = .ok (a.actor, g, { log := log, messages := [] })) ∧
      (∀ (pid : String) (player : Player),
        a.actor.playerId = some pid → g.getPlayer pid = some player →
        REST_perform a g log = .ok
          ({ a.actor with effects := { a.actor.effects with
              exhaustion := { a.actor.effects.exhaustion with
                current := a.actor.effects.exhaustion.maximum } } }, g,
            { log := log
              messages :=
                if Character.meterIsActive a.actor.effects.exhaustion then
                  [Messaging.createGameMessage "You rested at the camp and no longer feel exhausted." [player.id]]
                else
                  [Messaging.createGameMessage "You rested at the camp." [player.id]] })) := by
  intro a g log
  constructor
  · intro hpid
    unfold REST_perform
    dsimp only
    rw [hpid]
  · intro pid player hpid hgp
    unfold REST_perform
    dsimp only
    rw [hpid]
    dsimp only
    rw [hgp]

/-- C3 (amended): with a room stack holding the item and a positive
explicit amount not exceeding it, Pickup validation accepts whenever the
inventory has a free stack slot — even an amount overflowing the
existing partial stack — and rejects the overflowing amount only when
the inventory is full. -/
theorem C3_pickup_overflow_amended
    (a : ItemTransaction) (g : Game) (rRow rCol : Int) (rCamp : Bool)
    (cellItems : List ItemStack) (roomStack : ItemStack) (t : Int)
    (hcell : Map.getCell g.map a.actor.pos = .room rRow rCol rCamp cellItems)
    (hroom : Item.getItem cellItems a.itemName = some roomStack)
    (hamt : a.transactionAmount = some t)
    (h1 : 1 ≤ t) (h2 : t ≤ roomStack.stackAmount) :
    (Inventory.inventoryIsFull a.actor.inventory = false →
      PICKUP_validate a g = .ok { isValid := true, error := none }) ∧
    (∀ ps : ItemStack, Inventory.inventoryIsFull a.actor.inventory = true →
      Inventory.getItem a.actor.inventory a.itemName = some ps →
      Item.stackIsFull ps = false →
      ps.maxStackAmount < ps.stackAmount + t →
      PICKUP_validate a g = .ok ⟨false,
        some ("You can only hold " ++ toString ps.maxStackAmount ++ " " ++
          ps.item.name ++ "(s)!")⟩) := by
  have hbody : PICKUP_validate a g =
      (if Inventory.inventoryIsFull a.actor.inventory then
        if Inventory.hasItem a.actor.inventory a.itemName then
          match Inventory.getItem a.actor.inventory a.itemName with
          | some playerStack =>
            if Item.stackIsFull playerStack then
              Except.ok ⟨false, some ("Your current stack of " ++ a.itemName ++ " is full!")⟩
            else if playerStack.maxStackAmount < playerStack.stackAmount + t then
              Except.ok ⟨false, some ("You can only hold " ++ toString playerStack.maxStackAmount ++
                " " ++ playerStack.item.name ++ "(s)!")⟩
            else
              Except.ok { isValid := true }
          | none => Except.ok { isValid := true }
        else
          Except.ok { isValid := false, error := some "You inventory is full!" }
      else
        Except.ok { isValid := true }) := by
    unfold PICKUP_validate
    rw [hcell]
    dsimp only
    rw [hroom]
    dsimp only
    rw [hamt]
    dsimp only
    rw [if_neg (by omega : ¬ t < 1)]
    dsimp only
    rw [if_neg (by omega : ¬ roomStack.stackAmount < t)]
  constructor
  · intro hfull
    rw [hbody, hfull]
    simp
  · intro ps hfull hps hsf hov
    have hhas : Inventory.hasItem a.actor.inventory a.itemName = true := by
      unfold Inventory.hasItem Item.hasItem
      unfold Inventory.getItem at hps
      rw [hps]
      rfl
    rw [hbody, hfull]
    simp only [if_true]
    rw [hhas]
    simp only [if_true]
    rw [hps]
    dsimp only
    rw [if_neg (by simp [hsf] : ¬ Item.stackIsFull ps = true)]
    rw [if_pos hov]


/-- C4 (amended): with the weapon and strike-count preconditions met,
Attack validation rejects (reason given) when no active participant
matches the fragment; when one or more match, the first matching active
participant in roster order becomes the target — a co-located Fist
attack on it validates even if further participants also match. -/
theorem C4_attack_target_amended :
    ∀ (a : AttackAction) (g : Game),
      (a.weaponName = "Fist" ∨ Inventory.hasItem a.actor.inventory a.weaponName = true) →
      0 < a.times →
      (findAttackTarget g a.targetName = none →
        ATTACK_validate a g =
          { isValid := false, error := some ("No player with name '" ++ a.targetName ++ "'!") }) ∧
      (∀ tp : Player, findAttackTarget g a.targetName = some tp →
        a.weaponName = "Fist" →
        tp.character.row = a.actor.row →
        tp.character.col = a.actor.col →
        ATTACK_validate a g = { isValid := true, error := none }) := by
  intro a g hweapon htimes
  have hguard : (a.weaponName != "Fist" && !(Inventory.hasItem a.actor.inventory a.weaponName)) = false := by
    rcases hweapon with h | h
    · simp [h]
    · simp [h]
  constructor
  · intro hnone
    unfold ATTACK_validate
    simp only [hguard, Bool.false_eq_true, if_false, ite_false]
    rw [if_neg (by omega : ¬ a.times ≤ 0)]
    cases hws : attackWeaponStack a with
    | none =>
      exfalso
      unfold attackWeaponStack at hws
      by_cases hf : a.weaponName == "Fist"
      · rw [if_pos hf] at hws
        cases hws
      · rw [if_neg hf] at hws
        rcases hweapon with h | h
        · exact hf (by simp [h])
        · unfold Inventory.hasItem Item.hasItem at h
          unfold Inventory.getItem at hws
          rw [hws] at h
          simp at h
    | some ws =>
      rw [hnone]
  · intro tp htp hfist hrow hcol
    unfold ATTACK_validate
    simp only [hguard, Bool.false_eq_true, if_false, ite_false]
    rw [if_neg (by omega : ¬ a.times ≤ 0)]
    have hws : attackWeaponStack a = some (Item.createItemStack Weapon.FIST 1 1) := by
      unfold attackWeaponStack
      rw [if_pos (by simp [hfist])]
    rw [hws]
    dsimp only
    rw [htp]
    dsimp only
    have hpos : tp.character.pos = a.actor.pos := by
      unfold Animal.pos
      rw [hrow, hcol]
    rw [hpos]
    have hdist : Cell.cardinalPositionDistance (Map.getCell g.map a.actor.pos)
        (Map.getCell g.map a.actor.pos) = 0 := by
      unfold Cell.cardinalPositionDistance
      simp
    rw [hdist]
    rw [if_neg (by decide : ¬ (Item.createItemStack Weapon.FIST 1 1).item.range < 0)]
    rw [if_pos (by simp [hrow] : (tp.character.row == a.actor.row || tp.character.col == a.actor.col) = true)]
    have hbetween : Cell.getPositionsBetween a.actor.pos a.actor.pos = [] := by
      unfold Cell.getPositionsBetween
      simp
    rw [hbetween]
    simp only [List.map_nil, List.any_nil, Bool.false_eq_true, if_false, ite_false]
    rw [if_neg (by decide : ¬ (Item.createItemStack Weapon.FIST 1 1).item.isWeaponGun = true)]

/-- C5: every text matching the Move pattern parses to an action whose
offset pair has exactly one non-zero component equal to ±1, and every
performed valid Move puts the actor at old position + offset. -/
theorem C5_move_offsets_and_position :
    (∀ (text : String) (actor : Animal) (ts : Int),
      movePatternTest text = true →
      ∃ act : MoveAction, MOVE_parse text actor ts = .ok act ∧
        ((act.offsetRow = 0 ∧ (act.offsetCol = 1 ∨ act.offsetCol = -1)) ∨
         (act.offsetCol = 0 ∧ (act.offsetRow = 1 ∨ act.offsetRow = -1)))) ∧
    (∀ (move : MoveAction) (game : Game) (log : List String)
        (actor' : Animal) (game' : Game) (res : PerformResult),
      (MOVE_validate move game).isValid = true →
      MOVE_perform move game log = .ok (actor', game', res) →
      actor'.row = move.actor.row + move.offsetRow ∧
        actor'.col = move.actor.col + move.offsetCol) := by
  constructor
  · intro text actor ts h
    unfold movePatternTest moveCapture at h
    unfold MOVE_parse moveCapture
    by_cases h1 : strToLower text == "go north"
    · exact ⟨{ actor := actor, timestamp := ts, offsetRow := -1, offsetCol := 0 },
        by simp [h1], Or.inr ⟨rfl, Or.inr rfl⟩⟩
    · by_cases h2 : strToLower text == "go south"
      · exact ⟨{ actor := actor, timestamp := ts, offsetRow := 1, offsetCol := 0 },
          by simp [h1, h2], Or.inr ⟨rfl, Or.inl rfl⟩⟩
      · by_cases h3 : strToLower text == "go east"
        · exact ⟨{ actor := actor, timestamp := ts, offsetRow := 0, offsetCol := 1 },
            by simp [h1, h2, h3], Or.inl ⟨rfl, Or.inl rfl⟩⟩
        · by_cases h4 : strToLower text == "go west"
          · exact ⟨{ actor := actor, timestamp := ts, offsetRow := 0, offsetCol := -1 },
              by simp [h1, h2, h3, h4], Or.inl ⟨rfl, Or.inr rfl⟩⟩
          · simp [h1, h2, h3, h4] at h
  · intro move game log actor' game' res _hvalid hperf
    unfold MOVE_perform at hperf
    cases hpid : move.actor.playerId with
    | none =>
      simp [hpid] at hperf
      obtain ⟨ha, _, _⟩ := hperf
      subst ha
      exact ⟨rfl, rfl⟩
    | some pid =>
      simp [hpid] at hperf
      cases hp : game.getPlayer pid with
      | none => simp [hp] at hperf
      | some player =>
        simp [hp] at hperf
        obtain ⟨ha, _, _⟩ := hperf
        subst ha
        exact ⟨rfl, rfl⟩

/-- C6: Pass validation accepts every action, and a successful Pass
perform changes neither the actor nor the game, returns the log
untouched, and emits exactly one acknowledgment message when the actor
is participant-controlled and none otherwise. -/
theorem C6_pass_frame :
    ∀ (a : PassAction) (g : Game) (log : List String),
      PASS_validate a g = { isValid := true, error := none } ∧
      (∀ (actor' : Animal) (g' : Game) (res : PerformResult),
        PASS_perform a g log = .ok (actor', g', res) →
        actor' = a.actor ∧ g' = g ∧ res.log = log ∧
        (a.actor.playerId = none → res.messages = []) ∧
        (∀ pid : String, a.actor.playerId = some pid →
          ∃ player : Player, g.getPlayer pid = some player ∧
            res.messages = [Messaging.createGameMessage "You performed no action." [player.id]])) := by
  intro a g log
  refine ⟨rfl, ?_⟩
  intro actor' g' res hperf
  unfold PASS_perform at hperf
  cases hpid : a.actor.playerId with
  | none =>
    rw [hpid] at hperf
    dsimp only at hperf
    simp only [Except.ok.injEq, Prod.mk.injEq] at hperf
    obtain ⟨h1, h2, h3⟩ := hperf
    refine ⟨h1.symm, h2.symm, by rw [← h3], fun _ => by rw [← h3], ?_⟩
    intro pid hpid2
    exact Option.noConfusion hpid2
  | some pid =>
    rw [hpid] at hperf
    dsimp only at hperf
    cases hgp : g.getPlayer pid with
    | none => rw [hgp] at hperf; dsimp only at hperf; simp at hperf
    | some player =>
      rw [hgp] at hperf
      dsimp only at hperf
      simp only [Except.ok.injEq, Prod.mk.injEq] at hperf
      obtain ⟨h1, h2, h3⟩ := hperf
      refine ⟨h1.symm, h2.symm, by rw [← h3], ?_, ?_⟩
      · intro hn; exact Option.noConfusion hn
      · intro pid2 hp2
        obtain rfl : pid2 = pid := (Option.some_inj.mp hp2).symm
        exact ⟨player, hgp, by rw [← h3]⟩

/-- C7: Ingest validation rejects (with a reason, never a fault) exactly
when the consumable is absent from the inventory, while Ingest perform
raises a fault when the removed stack turns out not to be ingestible. -/
theorem C7_ingest_two_tier :
    ∀ (a : IngestAction) (g : Game),
      ((INGEST_validate a g).isValid = false ↔
        Inventory.hasItem a.actor.inventory a.itemName = false) ∧
      ((INGEST_validate a g).isValid = false →
        (INGEST_validate a g).error = some ("Missing " ++ a.itemName ++ " in inventory!")) ∧
      (∀ (log : List String) (st : ItemStack),
        (Inventory.removeFromInventory a.actor.inventory a.itemName 1).2 = some st →
        st.item.itemIsIngestible = false →
        INGEST_perform a g log =
          .error ("Tried to ingest an item that is not ingestible: '" ++ st.item.name ++ "'")) := by
  intro a g
  refine ⟨?_, ?_, ?_⟩
  · unfold INGEST_validate
    by_cases h : Inventory.hasItem a.actor.inventory a.itemName <;> simp [h]
  · unfold INGEST_validate
    by_cases h : Inventory.hasItem a.actor.inventory a.itemName <;> simp [h]
  · intro log st hrem hing
    unfold INGEST_perform
    dsimp only
    rw [hrem]
    dsimp only
    cases hkind : st.item.kind with
    | ingestible props => simp [Item.itemIsIngestible, hkind] at hing
    | weapon props => rfl
    | plain => rfl

/-- C8: text resolution tests the component patterns in the declared
order Move, Pass, Rest, Ingest, Attack, Pickup, Drop and returns the
first match (none otherwise); isParsableAction holds iff some pattern
matches; and key lookup returns the component registered under each of
the seven kinds. -/
theorem C8_registry_order_and_lookup :
    (∀ text : String,
      getComponentByText text =
        (if movePatternTest text then some { patternTest := movePatternTest, componentKey := .Move }
         else if passPatternTest text then some { patternTest := passPatternTest, componentKey := .Pass }
         else if restPatternTest text then some { patternTest := restPatternTest, componentKey := .Rest }
         else if ingestPatternTest text then some { patternTest := ingestPatternTest, componentKey := .Ingest }
         else if attackPatternTest text then some { patternTest := attackPatternTest, componentKey := .Attack }
         else if pickupPatternTest text then some { patternTest := pickupPatternTest, componentKey := .Pickup }
         else if dropPatternTest text then some { patternTest := dropPatternTest, componentKey := .Drop }
         else none)) ∧
    (∀ text : String,
      isParsableAction text =
        (movePatternTest text || passPatternTest text || restPatternTest text ||
          ingestPatternTest text || attackPatternTest text || pickupPatternTest text ||
          dropPatternTest text)) ∧
    (getComponentByKey .Move = some { patternTest := movePatternTest, componentKey := .Move } ∧
     getComponentByKey .Pass = some { patternTest := passPatternTest, componentKey := .Pass } ∧
     getComponentByKey .Rest = some { patternTest := restPatternTest, componentKey := .Rest } ∧
     getComponentByKey .Ingest = some { patternTest := ingestPatternTest, componentKey := .Ingest } ∧
     getComponentByKey .Attack = some { patternTest := attackPatternTest, componentKey := .Attack } ∧
     getComponentByKey .Pickup = some { patternTest := pickupPatternTest, componentKey := .Pickup } ∧
     getComponentByKey .Drop = some { patternTest := dropPatternTest, componentKey := .Drop }) := by
  refine ⟨?_, ?_, rfl, rfl, rfl, rfl, rfl, rfl, rfl⟩
  · intro text
    unfold getComponentByText PARSERS
    simp only [List.find?_cons]
    cases h1 : movePatternTest text <;> simp only [h1]
    cases h2 : passPatternTest text <;> simp only [h2]
    cases h3 : restPatternTest text <;> simp only [h3]
    cases h4 : ingestPatternTest text <;> simp only [h4]
    cases h5 : attackPatternTest text <;> simp only [h5]
    cases h6 : pickupPatternTest text <;> simp only [h6]
    cases h7 : dropPatternTest text <;> simp only [h7]
    all_goals simp
  · intro text
    unfold isParsableAction getComponentByText PARSERS
    simp only [List.find?_cons]
    cases h1 : movePatternTest text <;> simp only [h1]
    cases h2 : passPatternTest text <;> simp only [h2]
    cases h3 : restPatternTest text <;> simp only [h3]
    cases h4 : ingestPatternTest text <;> simp only [h4]
    cases h5 : attackPatternTest text <;> simp only [h5]
    cases h6 : pickupPatternTest text <;> simp only [h6]
    cases h7 : dropPatternTest text <;> simp only [h7]
    all_goals simp

/-- C9: Attack perform faults for every non-participant attacker — with
the message given when weapon and target resolve — even though
Attack validation accepts such attackers (concrete third conjunct). -/
theorem C9_attack_nonplayer_faults :
    (∀ (a : AttackAction) (g : Game) (log : List String),
      Character.isPlayerCharacter a.actor = false →
      ∃ e, ATTACK_perform a g log = .error e) ∧
    (∀ (a : AttackAction) (g : Game) (log : List String) (ws : ItemStack) (tp : Player),
      Character.isPlayerCharacter a.actor = false →
      attackWeaponStack a = some ws →
      findAttackTarget g a.targetName = some tp →
      ATTACK_perform a g log = .error "Expected attacker to be a player!") ∧
    (Character.isPlayerCharacter exWolfAttack.actor = false ∧
      ATTACK_validate exWolfAttack exAttackGame = { isValid := true, error := none }) := by
  have key : ∀ (a : AttackAction) (g : Game) (log : List String) (ws : ItemStack) (tp : Player),
      Character.isPlayerCharacter a.actor = false →
      attackWeaponStack a = some ws →
      findAttackTarget g a.targetName = some tp →
      ATTACK_perform a g log = .error "Expected attacker to be a player!" := by
    intro a g log ws tp h hws htp
    have hpid : a.actor.playerId = none := by
      unfold Character.isPlayerCharacter at h
      cases ho : a.actor.playerId with
      | none => rfl
      | some pid => rw [ho] at h; simp at h
    unfold ATTACK_perform
    rw [hws]
    dsimp only
    rw [htp]
    dsimp only
    rw [hpid]
  refine ⟨?_, key, by decide, by decide⟩
  intro a g log h
  cases hws : attackWeaponStack a with
  | none =>
    exact ⟨"TypeError: cannot read properties of undefined (weaponStack)", by
      unfold ATTACK_perform; rw [hws]⟩
  | some ws =>
    cases htp : findAttackTarget g a.targetName with
    | none =>
      refine ⟨"Expected target player \"" ++ a.targetName ++ "\" to exist!", ?_⟩
      unfold ATTACK_perform
      rw [hws]
      dsimp only
      rw [htp]
    | some tp =>
      exact ⟨"Expected attacker to be a player!", key a g log ws tp h hws htp⟩

/-- C10: a performed gun Attack removes exactly the requested strike
count of bullets (not the effective count) and leaves the attacker's
stats unchanged; a performed melee Attack leaves the inventory unchanged
and lowers strength by the effective strikes and agility by the
requested strikes. -/
theorem C10_attack_resource_consumption (a : AttackAction) (g : Game) (log : List String)
    (ws : ItemStack) (actor' : Animal) (g' : Game) (res : PerformResult)
    (hws : attackWeaponStack a = some ws)
    (hperf : ATTACK_perform a g log = .ok (actor', g', res)) :
    (ws.item.isWeaponGun = true →
      actor'.stats = a.actor.stats ∧
      actor'.inventory = (Inventory.removeFromInventory a.actor.inventory ws.item.bullet a.times).1 ∧
      (∀ bs : ItemStack, Inventory.getItem a.actor.inventory ws.item.bullet = some bs →
        a.times ≤ bs.stackAmount →
        (∀ st ∈ a.actor.inventory.itemStacks, 0 < st.stackAmount) →
        Inventory.invAmount actor'.inventory ws.item.bullet =
          Inventory.invAmount a.actor.inventory ws.item.bullet - a.times)) ∧
    (ws.item.isWeaponGun = false →
      actor'.inventory = a.actor.inventory ∧
      actor'.stats.strength = a.actor.stats.strength - effectiveStrikes ws.item a.times ∧
      actor'.stats.agility = a.actor.stats.agility - a.times ∧
      actor'.stats.health = a.actor.stats.health ∧
      actor'.stats.intelligence = a.actor.stats.intelligence) := by
  unfold ATTACK_perform at hperf
  rw [hws] at hperf
  dsimp only at hperf
  cases htp : findAttackTarget g a.targetName with
  | none => rw [htp] at hperf; dsimp only at hperf; simp at hperf
  | some tp =>
    rw [htp] at hperf
    dsimp only at hperf
    cases hpid : a.actor.playerId with
    | none => rw [hpid] at hperf; dsimp only at hperf; simp at hperf
    | some pid =>
      rw [hpid] at hperf
      dsimp only at hperf
      cases hgp : g.getPlayer pid with
      | none => rw [hgp] at hperf; dsimp only at hperf; simp at hperf
      | some actorPlayer =>
        rw [hgp] at hperf
        dsimp only at hperf
        simp only [Except.ok.injEq, Prod.mk.injEq] at hperf
        obtain ⟨hactor, -, -⟩ := hperf
        constructor
        · intro hgun
          rw [hgun] at hactor
          simp only [ite_true] at hactor
          refine ⟨by rw [← hactor], by rw [← hactor], ?_⟩
          intro bs hbs hble hpos
          rw [← hactor]
          exact invAmount_removeFromInventory a.actor.inventory ws.item.bullet a.times bs hbs hble hpos
        · intro hmelee
          rw [hmelee] at hactor
          simp only [Bool.false_eq_true, ite_false] at hactor
          exact ⟨by rw [← hactor], by rw [← hactor], by rw [← hactor], by rw [← hactor], by rw [← hactor]⟩

/-- C1 witness: Alice's Fist attack (5 strikes, damage 1) on Bob
(health 3) leaves Bob at health max(0, 3 − 5) = 0. -/
theorem C1_attack_damage_witness :
    findAttackTarget exAttackGameOut "bob" =
      some (damagePlayer (effectiveStrikes Weapon.FIST 5 * Weapon.FIST.damageAmount) exBob) ∧
    ((Weapon.FIST.isWeaponGun = false ∨ Weapon.FIST.accuracy = 100) →
      effectiveStrikes Weapon.FIST 5 = 5) :=
  C1_attack_damage exAttack exAttackGame [] (Item.createItemStack Weapon.FIST 1 1) exBob
    exAttackActorOut exAttackGameOut exAttackRes (by decide) (by decide) (by decide)

/-- C2 counterexample: Rest performed by a tired non-participant animal
succeeds but leaves its exhaustion meter untouched (current 2 ≠ maximum
10), refuting restoration "for every kind of actor". -/
theorem C2_rest_counterexample :
    REST_perform exWolfRest exEmptyGame [] =
      .ok (exWolfTired, exEmptyGame, { log := [], messages := [] }) ∧
    exWolfTired.effects.exhaustion.current = 2 ∧
    exWolfTired.effects.exhaustion.maximum = 10 ∧
    (2 : Int) ≠ 10 := by decide

/-- C2 witness: Dina (active exhaustion meter) rests; her meter is
restored to maximum and she is told she no longer feels exhausted. -/
theorem C2_rest_amended_witness :
    REST_perform exDinaRest exDinaGame [] = .ok
      ({ exDinaRest.actor with effects := { exDinaRest.actor.effects with
          exhaustion := { exDinaRest.actor.effects.exhaustion with
            current := exDinaRest.actor.effects.exhaustion.maximum } } }, exDinaGame,
        { log := []
          messages :=
            if Character.meterIsActive exDinaRest.actor.effects.exhaustion then
              [Messaging.createGameMessage "You rested at the camp and no longer feel exhausted." [exDina.id]]
            else
              [Messaging.createGameMessage "You rested at the camp." [exDina.id]] }) :=
  (C2_rest_amended exDinaRest exDinaGame []).2 "dina" exDina (by decide) (by decide)

/-- C3 counterexample: picking up 3 knives onto an existing 4/5 stack
overflows (5 < 4 + 3), yet validation accepts because the inventory has a
free slot — refuting "rejected regardless of whether the inventory is
full". -/
theorem C3_pickup_overflow_counterexample :
    exPickup.transactionAmount = some 3 ∧
    Inventory.getItem exPickup.actor.inventory "Knife" =
      some { item := exKnife, stackAmount := 4, maxStackAmount := 5 } ∧
    ((5 : Int) < 4 + 3) ∧
    Inventory.inventoryIsFull exPickup.actor.inventory = false ∧
    PICKUP_validate exPickup exPickGame = .ok { isValid := true, error := none } := by decide

/-- C3 witness: the same overflowing pickup with a full inventory is
rejected with the stack-capacity reason. -/
theorem C3_pickup_overflow_witness :
    PICKUP_validate exPickupFull exPickFullGame = .ok ⟨false,
      some ("You can only hold " ++
        toString ({ item := exKnife, stackAmount := 4, maxStackAmount := 5 } : ItemStack).maxStackAmount ++
        " " ++ exKnife.name ++ "(s)!")⟩ :=
  (C3_pickup_overflow_amended exPickupFull exPickFullGame 0 0 false
      [{ item := exKnife, stackAmount := 3, maxStackAmount := 10 }]
      { item := exKnife, stackAmount := 3, maxStackAmount := 10 } 3
      (by decide) (by decide) (by decide) (by decide) (by decide)).2
    { item := exKnife, stackAmount := 4, maxStackAmount := 5 }
    (by decide) (by decide) (by decide) (by decide)

/-- C4 counterexample: the fragment 'an' matches two distinct playing
participants, yet Attack validation accepts (resolving the first match)
instead of rejecting the ambiguity. -/
theorem C4_attack_ambiguity_counterexample :
    isPlaying exAnna = true ∧ isPlaying exAndre = true ∧
    isApproximateSubstring "an" exAnna.name = true ∧
    isApproximateSubstring "an" exAndre.name = true ∧
    exAnna.id ≠ exAndre.id ∧
    exAnna ∈ exAmbiguousGame.players ∧ exAndre ∈ exAmbiguousGame.players ∧
    exAmbiguousAttack.targetName = "an" ∧
    ATTACK_validate exAmbiguousAttack exAmbiguousGame = { isValid := true, error := none } := by
  decide

/-- C4 witness: the amended theorem applied to the ambiguous game — the
first matching participant is the resolved target and validation
accepts. -/
theorem C4_attack_target_witness :
    ATTACK_validate exAmbiguousAttack exAmbiguousGame = { isValid := true, error := none } :=
  (C4_attack_target_amended exAmbiguousAttack exAmbiguousGame (Or.inl rfl) (by decide)).2
    exAnna (by decide) rfl (by decide) (by decide)

/-- C5 witness: 'go south' matches the Move pattern, and performing the
parsed south move from (0,0) lands on (0+1, 0+0). -/
theorem C5_move_witness :
    movePatternTest "go south" = true ∧
    (moveEntity exMoveActor { row := 1, col := 0 }).row = exMove.actor.row + exMove.offsetRow ∧
    (moveEntity exMoveActor { row := 1, col := 0 }).col = exMove.actor.col + exMove.offsetCol := by
  refine ⟨by decide, ?_, ?_⟩ <;> exact
    (C5_move_offsets_and_position.2 exMove exMoveGame []
      (moveEntity exMoveActor { row := 1, col := 0 }) exMoveGame { log := [], messages := [] }
      (by decide) (by decide)).elim (fun h1 h2 => by first | exact h1 | exact h2)

/-- C6 witness: Dina's Pass validates, and its successful perform emits
exactly the acknowledgment message addressed to Dina. -/
theorem C6_pass_witness :
    PASS_validate exDinaPass exDinaGame = { isValid := true, error := none } ∧
    [Messaging.createGameMessage "You performed no action." ["dina"]] =
      [Messaging.createGameMessage "You performed no action." [exDina.id]] := by
  have h := C6_pass_frame exDinaPass exDinaGame []
  have h2 := h.2 exDinaPass.actor exDinaGame
    { log := [], messages := [Messaging.createGameMessage "You performed no action." ["dina"]] }
    (by decide)
  obtain ⟨player, hgp, hmsg⟩ := h2.2.2.2.2 "dina" (by decide)
  have hpl : player = exDina := by
    have hsome : some player = some exDina := by rw [← hgp]; decide
    exact Option.some_inj.mp hsome
  exact ⟨h.1, by rw [← hpl]; exact hmsg⟩

/-- C7 witness: ingesting the non-ingestible 'Stew' stack raises the
contract-violation fault. -/
theorem C7_ingest_witness :
    INGEST_perform exIngest exIngestGame [] =
      .error ("Tried to ingest an item that is not ingestible: '" ++ exStew.name ++ "'") :=
  (C7_ingest_two_tier exIngest exIngestGame).2.2 []
    { item := exStew, stackAmount := 2, maxStackAmount := 5 } (by decide) (by decide)

/-- C9 witness: the non-participant animal's Fist attack on Bob faults
with the attacker-must-be-a-player message. -/
theorem C9_attack_nonplayer_witness :
    ATTACK_perform exWolfAttack exAttackGame [] = .error "Expected attacker to be a player!" :=
  C9_attack_nonplayer_faults.2.1 exWolfAttack exAttackGame []
    (Item.createItemStack Weapon.FIST 1 1) exBob (by decide) (by decide) (by decide)

/-- C10 witness: Carl's 2-shot rifle attack (1 effective strike) removes
exactly 2 bullets (5 → 3) and leaves his stats unchanged. -/
theorem C10_attack_resource_witness :
    exGunActorOut.stats = exGunAttack.actor.stats ∧
    exGunActorOut.inventory =
      (Inventory.removeFromInventory exGunAttack.actor.inventory exRifleStack.item.bullet 2).1 ∧
    Inventory.invAmount exGunActorOut.inventory exRifleStack.item.bullet =
      Inventory.invAmount exGunAttack.actor.inventory exRifleStack.item.bullet - 2 := by
  have h := C10_attack_resource_consumption exGunAttack exGunGame [] exRifleStack
    exGunActorOut exGunGameOut exGunRes (by decide) (by decide)
  have hg := h.1 (by decide)
  exact ⟨hg.1, hg.2.1, hg.2.2 exBulletStack (by decide) (by decide) (by decide)⟩
